import Mathlib

/-!
Verification of the Better Auto-Reply plugin (`main.py`) against its
natural-language specification.

The plugin is shallowly embedded: Python strings become `List Char`,
Python `str.split` / `str.strip` / `str.lower` / `str.format` and the
relevant subset of `json.loads` are modelled as executable Lean
functions, and the event handler `group_message_handler` becomes a pure
function producing the ordered trace of its observable actions
(log lines, event-stop signal, provider call, downstream reply request).
-/

set_option autoImplicit false

namespace BetterAutoReply

/-! ### Python string primitives, modelled on `List Char` -/

/-- Characters removed by Python `str.strip()` (ASCII whitespace set). -/
def isPySpace (c : Char) : Bool :=
  c = ' ' || c = '\t' || c = '\n' || c = '\r' || c = '\x0b' || c = '\x0c'

/-- Python `s.strip()`: drop leading and trailing whitespace. -/
def pyStrip (s : List Char) : List Char :=
  ((s.dropWhile isPySpace).reverse.dropWhile isPySpace).reverse

/-- Python `s.lower()` (ASCII case folding suffices for this model). -/
def pyLower (s : List Char) : List Char := s.map Char.toLower

/-- Convenience: a Lean string literal as a `List Char`. -/
def cs (s : String) : List Char := s.toList

/-- The chunk of `s` strictly before the first occurrence of `sep`
(or all of `s` when `sep` does not occur); `sep = []` never matches,
mirroring that Python `str.split` is only ever called here with a
non-empty separator. -/
def takeBefore (sep : List Char) : List Char → List Char
  | [] => []
  | c :: rest =>
    if !sep.isEmpty && sep.isPrefixOf (c :: rest) then []
    else c :: takeBefore sep rest

/-- The remainder of `s` strictly after the first occurrence of `sep`,
or `none` when `sep` does not occur. -/
def afterFirst (sep : List Char) : List Char → Option (List Char)
  | [] => none
  | c :: rest =>
    if !sep.isEmpty && sep.isPrefixOf (c :: rest) then
      some ((c :: rest).drop sep.length)
    else afterFirst sep rest

/-- Fuelled worker for Python `s.split(sep)`: peel off the chunk before
each occurrence of `sep`. The fuel only needs to exceed the number of
occurrences; `pySplit` passes `s.length`. -/
def pySplitF (sep : List Char) : Nat → List Char → List (List Char)
  | 0, s => [s]
  | fuel + 1, s =>
    match afterFirst sep s with
    | none => [s]
    | some r => takeBefore sep s :: pySplitF sep fuel r

/-- Python `s.split(sep)` for a non-empty separator. -/
def pySplit (sep s : List Char) : List (List Char) := pySplitF sep s.length s

/-- Python `sep in s` substring containment (`"" in s` is `True`). -/
def pyContains (sep s : List Char) : Bool :=
  sep.isEmpty || (afterFirst sep s).isSome

/-! ### Python `str.format` with the three keyword arguments used at
`main.py` lines 97-101 -/

/-- One piece of a format template: literal text or a `{name}` field. -/
inductive TItem where
  | lit (s : List Char)
  | field (name : List Char)

/-- A format template is a sequence of pieces. -/
abbrev Template := List TItem

/-- The Python exceptions that can arise inside the handler's `try`
blocks: `KeyError` (from `str.format`), `json.JSONDecodeError`,
`IndexError` (from list indexing after `split`), and `AttributeError`
(from `.get` on a non-dict `json.loads` result). -/
inductive PyExn where
  | keyError
  | jsonDecodeError
  | indexError
  | attributeError
deriving DecidableEq

/-- Resolve a `{name}` field against the keyword arguments
`user_message=`, `is_at=`, `history=` supplied at `main.py` lines 97-101;
any other name raises `KeyError`. -/
def formatField (n um iat hist : List Char) : Except PyExn (List Char) :=
  if n = cs "user_message" then .ok um
  else if n = cs "is_at" then .ok iat
  else if n = cs "history" then .ok hist
  else .error .keyError

/-- Python `template.format(user_message=um, is_at=iat, history=hist)`. -/
def pyFormat (um iat hist : List Char) : Template → Except PyExn (List Char)
  | [] => .ok []
  | .lit s :: rest =>
    match pyFormat um iat hist rest with
    | .error e => .error e
    | .ok r => .ok (s ++ r)
  | .field n :: rest =>
    match formatField n um iat hist with
    | .error e => .error e
    | .ok v =>
      match pyFormat um iat hist rest with
      | .error e => .error e
      | .ok r => .ok (v ++ r)

/-- Python `str(b)` for a `bool`, as interpolated by `format`. -/
def pyBoolRepr (b : Bool) : List Char := if b then cs "True" else cs "False"

/-! ### The subset of `json.loads` the plugin relies on -/

/-- Parsed JSON values (numbers restricted to integers in this model;
the plugin only ever inspects booleans and strings). -/
inductive Json where
  | null
  | bool (b : Bool)
  | num (n : Int)
  | str (s : List Char)
  | arr (xs : List Json)
  | obj (kvs : List (List Char × Json))

/-- JSON inter-token whitespace. -/
def isJsonWs (c : Char) : Bool := c = ' ' || c = '\t' || c = '\n' || c = '\r'

/-- Drop leading JSON whitespace. -/
def skipWs (s : List Char) : List Char := s.dropWhile isJsonWs

/-- Named escape sequences inside JSON string literals
(`\uXXXX` escapes are outside this model and simply fail to parse). -/
def escChar (c : Char) : Option Char :=
  if c = '"' then some '"'
  else if c = '\\' then some '\\'
  else if c = '/' then some '/'
  else if c = 'n' then some '\n'
  else if c = 't' then some '\t'
  else if c = 'r' then some '\r'
  else if c = 'b' then some '\x08'
  else if c = 'f' then some '\x0c'
  else none

/-- Parse the body of a JSON string literal after its opening quote;
returns the decoded characters and the input after the closing quote. -/
def parseStringBody : List Char → Option (List Char × List Char)
  | [] => none
  | c :: rest =>
    if c = '"' then some ([], rest)
    else if c = '\\' then
      match rest with
      | [] => none
      | e :: rest2 =>
        match escChar e with
        | none => none
        | some ch => (parseStringBody rest2).map (fun p => (ch :: p.1, p.2))
    else (parseStringBody rest).map (fun p => (c :: p.1, p.2))

/-- Consume a run of decimal digits, accumulating their value. -/
def digitsToNat (acc : Nat) : List Char → Nat × List Char
  | [] => (acc, [])
  | c :: rest =>
    if c.isDigit then digitsToNat (acc * 10 + (c.toNat - '0'.toNat)) rest
    else (acc, c :: rest)

/-- Parse a JSON integer (optional minus sign followed by digits). -/
def parseNumber : List Char → Option (Int × List Char)
  | [] => none
  | '-' :: rest =>
    match rest with
    | c :: _ =>
      if c.isDigit then
        let p := digitsToNat 0 rest
        some (-(p.1 : Int), p.2)
      else none
    | [] => none
  | c :: rest =>
    if c.isDigit then
      let p := digitsToNat 0 (c :: rest)
      some ((p.1 : Int), p.2)
    else none

mutual

/-- Recursive-descent parse of one JSON value; returns the value and the
unconsumed input. -/
def parseValue : Nat → List Char → Option (Json × List Char)
  | 0, _ => none
  | fuel + 1, s =>
    match skipWs s with
    | [] => none
    | c :: rest =>
      if c = '"' then
        (parseStringBody rest).map (fun p => (Json.str p.1, p.2))
      else if c = '\x7b' then
        match skipWs rest with
        | '\x7d' :: r2 => some (Json.obj [], r2)
        | _ => (parseMembers fuel rest).map (fun p => (Json.obj p.1, p.2))
      else if c = '[' then
        match skipWs rest with
        | ']' :: r2 => some (Json.arr [], r2)
        | _ => (parseItems fuel rest).map (fun p => (Json.arr p.1, p.2))
      else if c = 't' then
        match rest with
        | 'r' :: 'u' :: 'e' :: r => some (Json.bool true, r)
        | _ => none
      else if c = 'f' then
        match rest with
        | 'a' :: 'l' :: 's' :: 'e' :: r => some (Json.bool false, r)
        | _ => none
      else if c = 'n' then
        match rest with
        | 'u' :: 'l' :: 'l' :: r => some (Json.null, r)
        | _ => none
      else
        (parseNumber (c :: rest)).map (fun p => (Json.num p.1, p.2))

/-- Parse the members of a JSON object after its opening brace
(the empty-object case is handled by `parseValue`). -/
def parseMembers : Nat → List Char → Option (List (List Char × Json) × List Char)
  | 0, _ => none
  | fuel + 1, s =>
    match skipWs s with
    | '"' :: rest =>
      match parseStringBody rest with
      | none => none
      | some (key, r1) =>
        match skipWs r1 with
        | ':' :: r2 =>
          match parseValue fuel r2 with
          | none => none
          | some (v, r3) =>
            match skipWs r3 with
            | ',' :: r4 => (parseMembers fuel r4).map (fun p => ((key, v) :: p.1, p.2))
            | '\x7d' :: r4 => some ([(key, v)], r4)
            | _ => none
        | _ => none
    | _ => none

/-- Parse the items of a JSON array after its opening bracket
(the empty-array case is handled by `parseValue`). -/
def parseItems : Nat → List Char → Option (List Json × List Char)
  | 0, _ => none
  | fuel + 1, s =>
    match parseValue fuel s with
    | none => none
    | some (v, r) =>
      match skipWs r with
      | ',' :: r2 => (parseItems fuel r2).map (fun p => (v :: p.1, p.2))
      | ']' :: r2 => some ([v], r2)
      | _ => none

end

/-- Python `json.loads`: exactly one JSON value, with only whitespace
around it; anything else raises `json.JSONDecodeError` (modelled as
`none`). -/
def json_loads (s : List Char) : Option Json :=
  match parseValue (s.length + 1) s with
  | none => none
  | some (v, rest) => if (skipWs rest).isEmpty then some v else none

/-- Python `dict.get(k, default)` on the pair list produced by the
parser; duplicate keys behave as in `json.loads` (the last wins). -/
def dictGet (kvs : List (List Char × Json)) (k : List Char) (d : Json) : Json :=
  match (kvs.filter (fun p => p.1 == k)).getLast? with
  | some p => p.2
  | none => d

/-- Python truthiness of a JSON value, as used by `if should_reply:`
at `main.py` line 131. -/
def pyTruthy : Json → Bool
  | .null => false
  | .bool b => b
  | .num n => n != 0
  | .str s => !s.isEmpty
  | .arr xs => !xs.isEmpty
  | .obj kvs => !kvs.isEmpty

/-! ### The plugin itself (`main.py`) -/

/-- The JSON-tagged Markdown fence marker tested at `main.py` line 113. -/
def jsonFenceTag : List Char := cs "```json"

/-- The generic Markdown fence marker tested at `main.py` line 115. -/
def fenceTag : List Char := cs "```"

/-- Default for a missing `reasoning` field (`main.py` line 120). -/
def noReasoningText : List Char := cs "无思考过程。"

/-- The fenced-block slicing of `main.py` lines 113-116:
`if "```json" in s: s = s.split("```json")[1].split("```")[0].strip()`
`elif "```" in s: s = s.split("```")[1].strip()`.
List indexing out of range raises `IndexError`. -/
def extract_decision_json_str (t : List Char) : Except PyExn (List Char) :=
  if pyContains jsonFenceTag t then
    match (pySplit jsonFenceTag t).get? 1 with
    | none => .error .indexError
    | some u =>
      match (pySplit fenceTag u).get? 0 with
      | none => .error .indexError
      | some v => .ok (pyStrip v)
  else if pyContains fenceTag t then
    match (pySplit fenceTag t).get? 1 with
    | none => .error .indexError
    | some u => .ok (pyStrip u)
  else .ok t

/-- Lines 110-120 of `main.py`: slice the fenced block out of the raw
completion text, `json.loads` it, and read the two fields with their
defaults. `.get` on a non-dict value raises `AttributeError`, which the
inner `except (json.JSONDecodeError, IndexError)` does not catch. -/
def parse_decision (txt : List Char) : Except PyExn (Json × Json) :=
  match extract_decision_json_str txt with
  | .error e => .error e
  | .ok s =>
    match json_loads s with
    | none => .error .jsonDecodeError
    | some (Json.obj kvs) =>
      .ok (dictGet kvs (cs "should_reply") (Json.bool false),
           dictGet kvs (cs "reasoning") (Json.str noReasoningText))
    | some _ => .error .attributeError

/-- The distinct log lines emitted by the handler. -/
inductive LogTag where
  | received
  | llmCallFailed
  | parseJsonFailed
  | thinkingHeader
  | analysis
  | replyIntent
  | generatingReply
  | decidedNoReply
  | unknownError
deriving DecidableEq

/-- One observable action of a handler run, in program order. -/
inductive Act where
  | log (t : LogTag)
  | stopEvent
  | callProvider (prompt : List Char)
  | requestLLM (prompt : List Char)
deriving DecidableEq

/-- The slice of `AstrMessageEvent` the handler reads. -/
structure Event where
  is_at_or_wake_command : Bool
  message_str : List Char

/-- The host configuration object (`AstrBotConfig`): `config.get(key,
default)` is modelled by `Option.getD` on these fields. -/
structure HostConfig where
  enabled : Option Bool
  trigger_keywords : Option (List (List Char))
  decision_making_prompt : Option Template

/-- The plugin attributes assigned in `__init__` (`main.py` lines
65-67). `enabled` is also stored but is overwritten from the live
configuration at the start of every handler run (line 75). -/
structure PluginState where
  enabled : Bool
  trigger_keywords : List (List Char)
  decision_prompt_template : Template

/-- The built-in decision prompt `DEFAULT_DECISION_PROMPT`
(`main.py` lines 24-47), transcribed as a format template. -/
def DEFAULT_DECISION_PROMPT : Template := [
  .lit (cs "\n你是一个名为AstrBot的AI助手的决策核心。你的任务是判断是否应该对用户的消息进行回复。\n\n你需要分析以下信息：\n1.  **用户消息**: "),
  .field (cs "user_message"),
  .lit (cs "\n2.  **是否@机器人**: "),
  .field (cs "is_at"),
  .lit (cs "\n3.  **历史对话（如果可用）**: "),
  .field (cs "history"),
  .lit (cs "\n\n你的决策原则是：\n-   **直接提问或指令**: 如果用户明确向机器人提问或发出指令，应该回复。\n-   **寻求帮助**: 如果用户表现出需要帮助的意图，应该回复。\n-   **闲聊/搭话**: 如果用户只是想闲聊，并且话题有趣或积极，可以考虑回复以增强互动。\n-   **无意义或负面内容**: 如果用户消息无意义、含糊不清、是垃圾信息或负面内容，则不应回复。\n-   **只是在讨论机器人**: 如果用户只是在第三方视角讨论机器人，而不是直接与机器人互动，通常不需要回复。\n\n请以JSON格式输出你的决策，包含两个字段：\n-   `should_reply` (boolean): `true` 表示应该回复, `false` 表示不应回复。\n-   `reasoning` (string): 解释你做出这个决策的详细思考过程。\n\n---\n用户消息: \""),
  .field (cs "user_message"),
  .lit (cs "\"\n---\n你的决策 (JSON格式):\n")
]

/-- The `__init__` reads of `main.py` lines 65-67: each configuration
value is read once, with its default, and stored on the plugin. -/
def plugin_init (config : HostConfig) : PluginState :=
  { enabled := config.enabled.getD true,
    trigger_keywords := config.trigger_keywords.getD [],
    decision_prompt_template := config.decision_making_prompt.getD DEFAULT_DECISION_PROMPT }

/-- The `try` block of `main.py` lines 93-137, as the list of actions it
performs plus the exception it lets escape to the outer
`except Exception` handler (if any). The provider is modelled as a
function from the rendered prompt to the completion text, where `none`
stands for a falsy response or missing completion (line 105). -/
def try_body (st : PluginState) (provider : List Char → Option (List Char))
    (is_at : Bool) (message_text : List Char) : List Act × Option PyExn :=
  match pyFormat message_text (pyBoolRepr is_at) (cs "N/A") st.decision_prompt_template with
  | .error e => ([], some e)
  | .ok prompt =>
    match provider prompt with
    | none => ([Act.callProvider prompt, Act.log .llmCallFailed], none)
    | some completion_text =>
      if completion_text.isEmpty then
        ([Act.callProvider prompt, Act.log .llmCallFailed], none)
      else
        match parse_decision completion_text with
        | .error PyExn.jsonDecodeError =>
          ([Act.callProvider prompt, Act.log .parseJsonFailed], none)
        | .error PyExn.indexError =>
          ([Act.callProvider prompt, Act.log .parseJsonFailed], none)
        | .error e => ([Act.callProvider prompt], some e)
        | .ok (should_reply, _reasoning) =>
          (Act.callProvider prompt :: Act.log .thinkingHeader :: Act.log .analysis ::
            Act.log .replyIntent ::
            (if pyTruthy should_reply then
              [Act.log .generatingReply, Act.requestLLM message_text]
             else [Act.log .decidedNoReply]), none)

/-- The handler `group_message_handler` (`main.py` lines 71-139) as the
ordered trace of its observable actions. `st` holds the attributes
stored by `__init__`; `config` is the live configuration at the time the
event arrives (the same object `self.config` aliases, possibly mutated
since initialization). -/
def group_message_handler (st : PluginState) (config : HostConfig)
    (provider : List Char → Option (List Char)) (event : Event) : List Act :=
  let enabled := config.enabled.getD true
  if !enabled then []
  else
    let is_at := event.is_at_or_wake_command
    let message_text := pyStrip event.message_str
    let is_triggered_by_keyword :=
      st.trigger_keywords.any (fun keyword =>
        pyContains (pyLower keyword) (pyLower message_text))
    if !is_at && !is_triggered_by_keyword then []
    else
      Act.log .received :: Act.stopEvent ::
        (match try_body st provider is_at message_text with
         | (acts, none) => acts
         | (acts, some _) => acts ++ [Act.log .unknownError])

/-- The trigger condition of `main.py` lines 80-85: addressed to the
bot, or some configured keyword occurs case-insensitively in the
stripped message text. -/
def triggered (st : PluginState) (event : Event) : Bool :=
  event.is_at_or_wake_command ||
    st.trigger_keywords.any (fun keyword =>
      pyContains (pyLower keyword) (pyLower (pyStrip event.message_str)))

/-! ### Lemmas about the split primitives -/

/-- The backtick character (obtained from a string literal). -/
def btick : Char := ("`".toList).headD ' '

theorem jsonFenceTag_cons : jsonFenceTag = btick :: cs "``json" := rfl

theorem fenceTag_cons : fenceTag = btick :: cs "``" := rfl

theorem afterFirst_length (sep : List Char) (hsep : sep ≠ []) :
    ∀ s r, afterFirst sep s = some r → r.length < s.length := by
  intro s
  induction s with
  | nil => intro r h; simp [afterFirst] at h
  | cons c rest ih =>
    intro r h
    simp only [afterFirst] at h
    split at h
    · rename_i hcond
      obtain rfl : (c :: rest).drop sep.length = r := by injection h
      have hpos : 0 < sep.length := List.length_pos.mpr hsep
      simp only [List.length_drop]
      exact Nat.sub_lt (Nat.succ_pos _) hpos
    · exact Nat.lt_trans (ih r h) (Nat.lt_succ_self _)

theorem takeBefore_of_afterFirst_none (sep : List Char) :
    ∀ s, afterFirst sep s = none → takeBefore sep s = s := by
  intro s
  induction s with
  | nil => intro _; rfl
  | cons c rest ih =>
    intro h
    simp only [afterFirst] at h
    split at h
    · exact absurd h (by simp)
    · rename_i hcond
      simp only [takeBefore, if_neg hcond]
      exact congrArg (c :: ·) (ih h)

theorem pySplitF_length_pos (sep : List Char) (fuel : Nat) (s : List Char) :
    1 ≤ (pySplitF sep fuel s).length := by
  cases fuel with
  | zero => simp [pySplitF]
  | succ n =>
    simp only [pySplitF]
    cases afterFirst sep s <;> simp

theorem pySplitF_get_zero (sep : List Char) (fuel : Nat) (s : List Char)
    (h : afterFirst sep s = none ∨ 1 ≤ fuel) :
    (pySplitF sep fuel s).get? 0 = some (takeBefore sep s) := by
  cases fuel with
  | zero =>
    rcases h with h | h
    · simp [pySplitF, takeBefore_of_afterFirst_none sep s h]
    · omega
  | succ n =>
    simp only [pySplitF]
    cases hA : afterFirst sep s with
    | none => simp [takeBefore_of_afterFirst_none sep s hA]
    | some r => rfl

theorem pySplit_get_zero (sep s : List Char) :
    (pySplit sep s).get? 0 = some (takeBefore sep s) := by
  cases s with
  | nil => rfl
  | cons c rest =>
    exact pySplitF_get_zero sep (c :: rest).length (c :: rest) (Or.inr (by simp))

theorem pySplit_get_one (sep : List Char) (hsep : sep ≠ []) (s : List Char) :
    (pySplit sep s).get? 1 = (afterFirst sep s).map (takeBefore sep) := by
  cases hA : afterFirst sep s with
  | none =>
    cases s with
    | nil => rfl
    | cons c rest =>
      show (pySplitF sep (rest.length + 1) (c :: rest)).get? 1 = none
      simp [pySplitF, hA]
  | some r =>
    cases s with
    | nil => simp [afterFirst] at hA
    | cons c rest =>
      show (pySplitF sep (rest.length + 1) (c :: rest)).get? 1 = some (takeBefore sep r)
      simp only [pySplitF, hA]
      show (pySplitF sep rest.length r).get? 0 = some (takeBefore sep r)
      apply pySplitF_get_zero
      have hlen := afterFirst_length sep hsep (c :: rest) r hA
      rcases Nat.eq_zero_or_pos rest.length with h0 | hp
      · left
        have : r = [] := List.eq_nil_of_length_eq_zero (by simp at hlen; omega)
        simp [this, afterFirst]
      · right; exact hp

theorem isPrefixOf_append_self (l t : List Char) : l.isPrefixOf (l ++ t) = true := by
  induction l with
  | nil => cases t <;> rfl
  | cons c rest ih => simp [List.isPrefixOf, ih]

theorem afterFirst_append (hd : Char) (tl a b : List Char)
    (ha : ∀ c ∈ a, c ≠ hd) :
    afterFirst (hd :: tl) (a ++ ((hd :: tl) ++ b)) = some b := by
  induction a with
  | nil =>
    simp only [List.nil_append]
    show afterFirst (hd :: tl) (hd :: (tl ++ b)) = some b
    have hpre : (hd :: tl).isPrefixOf (hd :: (tl ++ b)) = true :=
      isPrefixOf_append_self (hd :: tl) b
    simp only [afterFirst, hpre, List.isEmpty_cons, Bool.not_false, Bool.true_and, if_true]
    show some (((hd :: tl) ++ b).drop (hd :: tl).length) = some b
    rw [List.drop_left]
  | cons x a' ih =>
    have hx : x ≠ hd := ha x (by simp)
    have ih' := ih (fun c hc => ha c (by simp [hc]))
    show afterFirst (hd :: tl) (x :: (a' ++ (hd :: (tl ++ b)))) = some b
    have hpre : (hd :: tl).isPrefixOf (x :: (a' ++ (hd :: (tl ++ b)))) = false := by
      simp [List.isPrefixOf, Ne.symm hx]
    simp only [afterFirst, hpre, Bool.and_false]
    exact ih'

theorem takeBefore_append (hd : Char) (tl a b : List Char)
    (ha : ∀ c ∈ a, c ≠ hd) :
    takeBefore (hd :: tl) (a ++ ((hd :: tl) ++ b)) = a := by
  induction a with
  | nil =>
    simp only [List.nil_append]
    show takeBefore (hd :: tl) (hd :: (tl ++ b)) = []
    have hpre : (hd :: tl).isPrefixOf (hd :: (tl ++ b)) = true :=
      isPrefixOf_append_self (hd :: tl) b
    simp [takeBefore, hpre]
  | cons x a' ih =>
    have hx : x ≠ hd := ha x (by simp)
    have ih' := ih (fun c hc => ha c (by simp [hc]))
    show takeBefore (hd :: tl) (x :: (a' ++ (hd :: (tl ++ b)))) = x :: a'
    have hpre : (hd :: tl).isPrefixOf (x :: (a' ++ (hd :: (tl ++ b)))) = false := by
      simp [List.isPrefixOf, Ne.symm hx]
    simp only [takeBefore, hpre, Bool.and_false]
    exact congrArg (x :: ·) ih'

theorem afterFirst_of_no_head (hd : Char) (tl s : List Char)
    (hs : ∀ c ∈ s, c ≠ hd) : afterFirst (hd :: tl) s = none := by
  induction s with
  | nil => rfl
  | cons x rest ih =>
    have hx : x ≠ hd := hs x (by simp)
    have ih' := ih (fun c hc => hs c (by simp [hc]))
    have hpre : (hd :: tl).isPrefixOf (x :: rest) = false := by
      simp [List.isPrefixOf, Ne.symm hx]
    simp only [afterFirst, hpre, Bool.and_false]
    simp only [if_neg Bool.false_ne_true]
    exact ih'

theorem afterFirst_append_isSome (sep : List Char) (hsep : sep ≠ []) (a b : List Char) :
    (afterFirst sep (a ++ (sep ++ b))).isSome = true := by
  induction a with
  | nil =>
    obtain ⟨hd, tl, rfl⟩ := List.exists_cons_of_ne_nil hsep
    simp only [List.nil_append]
    show (afterFirst (hd :: tl) (hd :: (tl ++ b))).isSome = true
    have hpre : (hd :: tl).isPrefixOf (hd :: (tl ++ b)) = true :=
      isPrefixOf_append_self (hd :: tl) b
    simp [afterFirst, hpre]
  | cons x a' ih =>
    simp only [List.cons_append]
    show (afterFirst sep (x :: (a' ++ (sep ++ b)))).isSome = true
    simp only [afterFirst]
    split
    · simp
    · exact ih

theorem pyContains_append (sep : List Char) (hsep : sep ≠ []) (a b : List Char) :
    pyContains sep (a ++ (sep ++ b)) = true := by
  simp only [pyContains, afterFirst_append_isSome sep hsep a b, Bool.or_true]

theorem afterFirst_of_pyContains (sep s : List Char) (hsep : sep.isEmpty = false)
    (h : pyContains sep s = true) : (afterFirst sep s).isSome = true := by
  simpa [pyContains, hsep] using h

theorem pyContains_eq_false_of_no_head (hd : Char) (tl s : List Char)
    (hs : ∀ c ∈ s, c ≠ hd) : pyContains (hd :: tl) s = false := by
  simp [pyContains, afterFirst_of_no_head hd tl s hs]

theorem afterFirst_eq_none_of_not_contains (sep s : List Char)
    (h : pyContains sep s = false) : afterFirst sep s = none := by
  unfold pyContains at h
  rcases Bool.or_eq_false_iff.mp h with ⟨-, h2⟩
  exact Option.not_isSome_iff_eq_none.mp (by simp [h2])

theorem jsonFenceTag_ne_nil : jsonFenceTag ≠ [] := by decide

theorem fenceTag_ne_nil : fenceTag ≠ [] := by decide

/-- The fenced-block slicing never actually raises `IndexError`: when a
branch's membership test succeeds the split has at least two parts. -/
theorem pySplit_two_of_contains (sep : List Char) (hsep : sep ≠ []) (s : List Char)
    (h : pyContains sep s = true) : 2 ≤ (pySplit sep s).length := by
  have hsE : sep.isEmpty = false := by
    cases sep with
    | nil => exact absurd rfl hsep
    | cons c rest => rfl
  have hS := afterFirst_of_pyContains sep s hsE h
  obtain ⟨r, hr⟩ := Option.isSome_iff_exists.mp hS
  cases s with
  | nil => simp [afterFirst] at hr
  | cons c rest =>
    show 2 ≤ (pySplitF sep (rest.length + 1) (c :: rest)).length
    simp only [pySplitF, hr, List.length_cons]
    have := pySplitF_length_pos sep rest.length r
    omega

/-- The slicing step of the extractor always succeeds. -/
theorem extract_always_ok (t : List Char) :
    ∃ u, extract_decision_json_str t = .ok u := by
  unfold extract_decision_json_str
  by_cases h1 : pyContains jsonFenceTag t = true
  · have h2 := afterFirst_of_pyContains jsonFenceTag t rfl h1
    obtain ⟨u, hu⟩ := Option.isSome_iff_exists.mp h2
    rw [pySplit_get_one jsonFenceTag jsonFenceTag_ne_nil t] at *
    simp only [h1, if_true, hu, Option.map_some']
    rw [pySplit_get_zero]
    exact ⟨_, rfl⟩
  · have h1' : pyContains jsonFenceTag t = false := by
      cases hx : pyContains jsonFenceTag t
      · rfl
      · exact absurd hx h1
    simp only [h1', Bool.false_eq_true, if_false]
    by_cases h2 : pyContains fenceTag t = true
    · have h3 := afterFirst_of_pyContains fenceTag t rfl h2
      obtain ⟨u, hu⟩ := Option.isSome_iff_exists.mp h3
      rw [pySplit_get_one fenceTag fenceTag_ne_nil t]
      simp only [h2, if_true, hu, Option.map_some']
      exact ⟨_, rfl⟩
    · have h2' : pyContains fenceTag t = false := by
        cases hx : pyContains fenceTag t
        · rfl
        · exact absurd hx h2
      simp only [h2', Bool.false_eq_true, if_false]
      exact ⟨t, rfl⟩

/-! ### Lemmas about the handler trace -/

/-- Recognizer for the downstream reply request action. -/
def isReplyRequest : Act → Bool
  | .requestLLM _ => true
  | _ => false

theorem handler_disabled (st : PluginState) (config : HostConfig)
    (provider : List Char → Option (List Char)) (event : Event)
    (h : config.enabled.getD true = false) :
    group_message_handler st config provider event = [] := by
  unfold group_message_handler
  simp [h]

theorem handler_not_triggered (st : PluginState) (config : HostConfig)
    (provider : List Char → Option (List Char)) (event : Event)
    (hE : config.enabled.getD true = true)
    (hT : triggered st event = false) :
    group_message_handler st config provider event = [] := by
  unfold triggered at hT
  rcases Bool.or_eq_false_iff.mp hT with ⟨h1, h2⟩
  unfold group_message_handler
  simp [hE, h1, h2]

theorem handler_triggered_eq (st : PluginState) (config : HostConfig)
    (provider : List Char → Option (List Char)) (event : Event)
    (hE : config.enabled.getD true = true)
    (hT : triggered st event = true) :
    group_message_handler st config provider event =
      Act.log .received :: Act.stopEvent ::
        (match try_body st provider event.is_at_or_wake_command (pyStrip event.message_str) with
         | (acts, none) => acts
         | (acts, some _) => acts ++ [Act.log .unknownError]) := by
  unfold triggered at hT
  unfold group_message_handler
  have hcond : (!event.is_at_or_wake_command &&
      !(st.trigger_keywords.any fun keyword =>
        pyContains (pyLower keyword) (pyLower (pyStrip event.message_str)))) = false := by
    rw [← Bool.not_or, hT]
    rfl
  simp [hE, hcond]

theorem try_body_format_error (st : PluginState) (provider : List Char → Option (List Char))
    (is_at : Bool) (mt : List Char) (e : PyExn)
    (hF : pyFormat mt (pyBoolRepr is_at) (cs "N/A") st.decision_prompt_template = .error e) :
    try_body st provider is_at mt = ([], some e) := by
  unfold try_body
  simp only [hF]

theorem try_body_provider_none (st : PluginState) (provider : List Char → Option (List Char))
    (is_at : Bool) (mt prompt : List Char)
    (hF : pyFormat mt (pyBoolRepr is_at) (cs "N/A") st.decision_prompt_template = .ok prompt)
    (hp : provider prompt = none) :
    try_body st provider is_at mt = ([Act.callProvider prompt, Act.log .llmCallFailed], none) := by
  unfold try_body
  simp only [hF, hp]

theorem try_body_provider_empty (st : PluginState) (provider : List Char → Option (List Char))
    (is_at : Bool) (mt prompt : List Char)
    (hF : pyFormat mt (pyBoolRepr is_at) (cs "N/A") st.decision_prompt_template = .ok prompt)
    (hp : provider prompt = some []) :
    try_body st provider is_at mt = ([Act.callProvider prompt, Act.log .llmCallFailed], none) := by
  unfold try_body
  simp only [hF, hp, List.isEmpty_nil, if_true]

theorem try_body_parse_fail_json (st : PluginState) (provider : List Char → Option (List Char))
    (is_at : Bool) (mt prompt txt : List Char)
    (hF : pyFormat mt (pyBoolRepr is_at) (cs "N/A") st.decision_prompt_template = .ok prompt)
    (hp : provider prompt = some txt) (hne : txt.isEmpty = false)
    (hd : parse_decision txt = .error PyExn.jsonDecodeError) :
    try_body st provider is_at mt = ([Act.callProvider prompt, Act.log .parseJsonFailed], none) := by
  unfold try_body
  simp only [hF, hp, hne, Bool.false_eq_true, if_false, hd]

theorem try_body_parse_fail_index (st : PluginState) (provider : List Char → Option (List Char))
    (is_at : Bool) (mt prompt txt : List Char)
    (hF : pyFormat mt (pyBoolRepr is_at) (cs "N/A") st.decision_prompt_template = .ok prompt)
    (hp : provider prompt = some txt) (hne : txt.isEmpty = false)
    (hd : parse_decision txt = .error PyExn.indexError) :
    try_body st provider is_at mt = ([Act.callProvider prompt, Act.log .parseJsonFailed], none) := by
  unfold try_body
  simp only [hF, hp, hne, Bool.false_eq_true, if_false, hd]

theorem try_body_parse_exn_key (st : PluginState) (provider : List Char → Option (List Char))
    (is_at : Bool) (mt prompt txt : List Char)
    (hF : pyFormat mt (pyBoolRepr is_at) (cs "N/A") st.decision_prompt_template = .ok prompt)
    (hp : provider prompt = some txt) (hne : txt.isEmpty = false)
    (hd : parse_decision txt = .error PyExn.keyError) :
    try_body st provider is_at mt = ([Act.callProvider prompt], some PyExn.keyError) := by
  unfold try_body
  simp only [hF, hp, hne, Bool.false_eq_true, if_false, hd]

theorem try_body_parse_exn_attr (st : PluginState) (provider : List Char → Option (List Char))
    (is_at : Bool) (mt prompt txt : List Char)
    (hF : pyFormat mt (pyBoolRepr is_at) (cs "N/A") st.decision_prompt_template = .ok prompt)
    (hp : provider prompt = some txt) (hne : txt.isEmpty = false)
    (hd : parse_decision txt = .error PyExn.attributeError) :
    try_body st provider is_at mt = ([Act.callProvider prompt], some PyExn.attributeError) := by
  unfold try_body
  simp only [hF, hp, hne, Bool.false_eq_true, if_false, hd]

theorem try_body_decision (st : PluginState) (provider : List Char → Option (List Char))
    (is_at : Bool) (mt prompt txt : List Char) (sr rs : Json)
    (hF : pyFormat mt (pyBoolRepr is_at) (cs "N/A") st.decision_prompt_template = .ok prompt)
    (hp : provider prompt = some txt) (hne : txt.isEmpty = false)
    (hd : parse_decision txt = .ok (sr, rs)) :
    try_body st provider is_at mt =
      (Act.callProvider prompt :: Act.log .thinkingHeader :: Act.log .analysis ::
        Act.log .replyIntent ::
        (if pyTruthy sr then [Act.log .generatingReply, Act.requestLLM mt]
         else [Act.log .decidedNoReply]), none) := by
  unfold try_body
  simp only [hF, hp, hne, Bool.false_eq_true, if_false, hd]

/-- Any outcome of the inner block either follows a format error or
begins with the provider call. -/
theorem try_body_cases (st : PluginState) (provider : List Char → Option (List Char))
    (is_at : Bool) (mt : List Char) :
    (∃ e, pyFormat mt (pyBoolRepr is_at) (cs "N/A") st.decision_prompt_template = .error e ∧
        try_body st provider is_at mt = ([], some e)) ∨
    (∃ prompt rest exn,
        pyFormat mt (pyBoolRepr is_at) (cs "N/A") st.decision_prompt_template = .ok prompt ∧
        try_body st provider is_at mt = (Act.callProvider prompt :: rest, exn)) := by
  cases hF : pyFormat mt (pyBoolRepr is_at) (cs "N/A") st.decision_prompt_template with
  | error e => exact Or.inl ⟨e, rfl, try_body_format_error st provider is_at mt e hF⟩
  | ok prompt =>
    refine Or.inr ⟨prompt, ?_⟩
    cases hp : provider prompt with
    | none => exact ⟨_, _, rfl, try_body_provider_none st provider is_at mt prompt hF hp⟩
    | some txt =>
      cases hne : txt.isEmpty with
      | true =>
        have : txt = [] := List.isEmpty_iff.mp hne
        subst this
        exact ⟨_, _, rfl, try_body_provider_empty st provider is_at mt prompt hF hp⟩
      | false =>
        cases hd : parse_decision txt with
        | error e =>
          cases e with
          | keyError =>
            exact ⟨_, _, rfl, try_body_parse_exn_key st provider is_at mt prompt txt hF hp hne hd⟩
          | jsonDecodeError =>
            exact ⟨_, _, rfl, try_body_parse_fail_json st provider is_at mt prompt txt hF hp hne hd⟩
          | indexError =>
            exact ⟨_, _, rfl, try_body_parse_fail_index st provider is_at mt prompt txt hF hp hne hd⟩
          | attributeError =>
            exact ⟨_, _, rfl, try_body_parse_exn_attr st provider is_at mt prompt txt hF hp hne hd⟩
        | ok pr =>
          obtain ⟨sr, rs⟩ := pr
          exact ⟨_, _, rfl, try_body_decision st provider is_at mt prompt txt sr rs hF hp hne hd⟩

/-- Every handler run dispatches at most one downstream request, and any
dispatched request carries the stripped message text. -/
theorem handler_requests (st : PluginState) (config : HostConfig)
    (provider : List Char → Option (List Char)) (event : Event) :
    (group_message_handler st config provider event).filter isReplyRequest = [] ∨
    (group_message_handler st config provider event).filter isReplyRequest =
      [Act.requestLLM (pyStrip event.message_str)] := by
  cases hE : config.enabled.getD true with
  | false => rw [handler_disabled st config provider event hE]; exact Or.inl rfl
  | true =>
    cases hT : triggered st event with
    | false => rw [handler_not_triggered st config provider event hE hT]; exact Or.inl rfl
    | true =>
      rw [handler_triggered_eq st config provider event hE hT]
      set mt := pyStrip event.message_str with hmt
      cases hF : pyFormat mt (pyBoolRepr event.is_at_or_wake_command) (cs "N/A")
          st.decision_prompt_template with
      | error e =>
        rw [try_body_format_error st provider event.is_at_or_wake_command mt e hF]
        exact Or.inl rfl
      | ok prompt =>
        cases hp : provider prompt with
        | none =>
          rw [try_body_provider_none st provider event.is_at_or_wake_command mt prompt hF hp]
          exact Or.inl rfl
        | some txt =>
          cases hne : txt.isEmpty with
          | true =>
            have : txt = [] := List.isEmpty_iff.mp hne
            subst this
            rw [try_body_provider_empty st provider event.is_at_or_wake_command mt prompt hF hp]
            exact Or.inl rfl
          | false =>
            cases hd : parse_decision txt with
            | error e =>
              cases e with
              | keyError =>
                rw [try_body_parse_exn_key st provider event.is_at_or_wake_command mt prompt txt
                  hF hp hne hd]
                exact Or.inl rfl
              | jsonDecodeError =>
                rw [try_body_parse_fail_json st provider event.is_at_or_wake_command mt prompt txt
                  hF hp hne hd]
                exact Or.inl rfl
              | indexError =>
                rw [try_body_parse_fail_index st provider event.is_at_or_wake_command mt prompt txt
                  hF hp hne hd]
                exact Or.inl rfl
              | attributeError =>
                rw [try_body_parse_exn_attr st provider event.is_at_or_wake_command mt prompt txt
                  hF hp hne hd]
                exact Or.inl rfl
            | ok pr =>
              obtain ⟨sr, rs⟩ := pr
              rw [try_body_decision st provider event.is_at_or_wake_command mt prompt txt sr rs
                hF hp hne hd]
              cases hS : pyTruthy sr with
              | true => simp only [hS, if_true]; exact Or.inr rfl
              | false => simp only [hS, Bool.false_eq_true, if_false]; exact Or.inl rfl

/-! ### Claim theorems -/

/-- C1: the Decision Extractor satisfies the three round-trip examples:
a ```json-tagged fence around the should_reply/reasoning object, an
untagged fence around it, and the bare unfenced object all yield the
expected Decision (should_reply, reasoning) pair. -/
theorem C1_extraction_round_trip :
    parse_decision (cs "```json\n\x7b\"should_reply\": true, \"reasoning\": \"x\"\x7d\n```") =
      .ok (Json.bool true, Json.str (cs "x"))
  ∧ parse_decision (cs "```\n\x7b\"should_reply\": false, \"reasoning\": \"y\"\x7d\n```") =
      .ok (Json.bool false, Json.str (cs "y"))
  ∧ parse_decision (cs "\x7b\"should_reply\": true, \"reasoning\": \"z\"\x7d") =
      .ok (Json.bool true, Json.str (cs "z")) :=
  ⟨rfl, rfl, rfl⟩

/-- C2 counterexample: a text whose only fence marker has no closing
counterpart. The claim says such a missing second delimiter makes the
extraction fail with an out-of-range slice; in fact `split` still yields
two parts, everything after the fence is taken, and here the extraction
even succeeds end to end. -/
theorem C2_counterexample :
    pyContains fenceTag (cs "```\x7b\"should_reply\": false, \"reasoning\": \"w\"\x7d") = true
  ∧ pyContains jsonFenceTag (cs "```\x7b\"should_reply\": false, \"reasoning\": \"w\"\x7d") = false
  ∧ (pySplit fenceTag (cs "```\x7b\"should_reply\": false, \"reasoning\": \"w\"\x7d")).length = 2
  ∧ parse_decision (cs "```\x7b\"should_reply\": false, \"reasoning\": \"w\"\x7d") =
      .ok (Json.bool false, Json.str (cs "w")) :=
  ⟨rfl, rfl, rfl, rfl⟩

/-- C2 (amended): the slicing step of the extractor, characterized on
decompositions of the input. A JSON-tagged fence takes priority and the
content up to the next fence marker is taken (part 1, which also shows
only the first tagged block matters); an untagged fence takes the
content between the first and second fence occurrences (part 2); with no
second delimiter the content after the first fence is taken and slicing
still succeeds, rather than failing out of range (part 3); with no fence
at all the raw text is used unmodified (part 4). -/
theorem C2_amended_slicing (a c d : List Char)
    (ha : ∀ ch ∈ a, ch ≠ btick) (hc : ∀ ch ∈ c, ch ≠ btick) :
    (pyContains jsonFenceTag (c ++ (fenceTag ++ d)) = false →
       extract_decision_json_str (a ++ (jsonFenceTag ++ (c ++ (fenceTag ++ d)))) =
         .ok (pyStrip c))
  ∧ (pyContains jsonFenceTag (a ++ (fenceTag ++ (c ++ (fenceTag ++ d)))) = false →
       extract_decision_json_str (a ++ (fenceTag ++ (c ++ (fenceTag ++ d)))) =
         .ok (pyStrip c))
  ∧ (pyContains jsonFenceTag (a ++ (fenceTag ++ c)) = false →
       extract_decision_json_str (a ++ (fenceTag ++ c)) = .ok (pyStrip c))
  ∧ (∀ s, pyContains jsonFenceTag s = false → pyContains fenceTag s = false →
       extract_decision_json_str s = .ok s) := by
  refine ⟨?_, ?_, ?_, ?_⟩
  · intro hnj
    have h1 : pyContains jsonFenceTag (a ++ (jsonFenceTag ++ (c ++ (fenceTag ++ d)))) = true :=
      pyContains_append jsonFenceTag jsonFenceTag_ne_nil a _
    have hA : afterFirst jsonFenceTag (a ++ (jsonFenceTag ++ (c ++ (fenceTag ++ d)))) =
        some (c ++ (fenceTag ++ d)) := by
      rw [jsonFenceTag_cons]
      exact afterFirst_append btick (cs "``json") a (c ++ (fenceTag ++ d)) ha
    have hTB : takeBefore jsonFenceTag (c ++ (fenceTag ++ d)) = c ++ (fenceTag ++ d) :=
      takeBefore_of_afterFirst_none jsonFenceTag _
        (afterFirst_eq_none_of_not_contains jsonFenceTag _ hnj)
    have hTB2 : takeBefore fenceTag (c ++ (fenceTag ++ d)) = c := by
      rw [fenceTag_cons]
      exact takeBefore_append btick (cs "``") c d hc
    unfold extract_decision_json_str
    rw [pySplit_get_one jsonFenceTag jsonFenceTag_ne_nil, hA]
    simp only [h1, if_true, Option.map_some']
    rw [pySplit_get_zero, hTB, hTB2]
  · intro hnj
    have h2 : pyContains fenceTag (a ++ (fenceTag ++ (c ++ (fenceTag ++ d)))) = true :=
      pyContains_append fenceTag fenceTag_ne_nil a _
    have hA : afterFirst fenceTag (a ++ (fenceTag ++ (c ++ (fenceTag ++ d)))) =
        some (c ++ (fenceTag ++ d)) := by
      rw [fenceTag_cons]
      exact afterFirst_append btick (cs "``") a (c ++ (fenceTag ++ d)) ha
    have hTB : takeBefore fenceTag (c ++ (fenceTag ++ d)) = c := by
      rw [fenceTag_cons]
      exact takeBefore_append btick (cs "``") c d hc
    unfold extract_decision_json_str
    rw [pySplit_get_one fenceTag fenceTag_ne_nil, hA]
    simp only [hnj, Bool.false_eq_true, if_false, h2, if_true, Option.map_some']
    rw [hTB]
  · intro hnj
    have h2 : pyContains fenceTag (a ++ (fenceTag ++ c)) = true :=
      pyContains_append fenceTag fenceTag_ne_nil a c
    have hA : afterFirst fenceTag (a ++ (fenceTag ++ c)) = some c := by
      rw [fenceTag_cons]
      exact afterFirst_append btick (cs "``") a c ha
    have hTB : takeBefore fenceTag c = c := by
      apply takeBefore_of_afterFirst_none
      rw [fenceTag_cons]
      exact afterFirst_of_no_head btick (cs "``") c hc
    unfold extract_decision_json_str
    rw [pySplit_get_one fenceTag fenceTag_ne_nil, hA]
    simp only [hnj, Bool.false_eq_true, if_false, h2, if_true, Option.map_some']
    rw [hTB]
  · intro s h1 h2
    unfold extract_decision_json_str
    simp only [h1, h2, Bool.false_eq_true, if_false]

/-- Witness for C2 (amended): parts 1 and 3 applied at concrete inputs. -/
theorem C2_amended_slicing_witness :
    extract_decision_json_str
        (cs "Answer: " ++ (jsonFenceTag ++ (cs " X " ++ (fenceTag ++ cs " tail")))) =
      .ok (pyStrip (cs " X "))
  ∧ extract_decision_json_str (cs "A " ++ (fenceTag ++ cs " Y")) = .ok (pyStrip (cs " Y")) :=
  ⟨(C2_amended_slicing (cs "Answer: ") (cs " X ") (cs " tail")
      (by decide) (by decide)).1 (by decide),
   (C2_amended_slicing (cs "A ") (cs " Y") []
      (by decide) (by decide)).2.2.1 (by decide)⟩

/-- C10: the fenced-block slicing is total: whenever a branch's
membership test succeeds, the split yields at least two parts, so taking
the element after the first occurrence never raises; the slicing step
always returns a substring, and the guarded extraction can only fail as
a JSON parse failure, never as an `IndexError`. -/
theorem C10_slicing_total :
    (∀ s, pyContains jsonFenceTag s = true → 2 ≤ (pySplit jsonFenceTag s).length)
  ∧ (∀ s, pyContains fenceTag s = true → 2 ≤ (pySplit fenceTag s).length)
  ∧ (∀ t, ∃ u, extract_decision_json_str t = .ok u)
  ∧ (∀ t e, parse_decision t = .error e → e ≠ PyExn.indexError) := by
  refine ⟨fun s h => pySplit_two_of_contains jsonFenceTag jsonFenceTag_ne_nil s h,
          fun s h => pySplit_two_of_contains fenceTag fenceTag_ne_nil s h,
          extract_always_ok, ?_⟩
  intro t e h
  obtain ⟨u, hu⟩ := extract_always_ok t
  cases hl : json_loads u with
  | none =>
    simp only [parse_decision, hu, hl] at h
    obtain rfl : PyExn.jsonDecodeError = e := by injection h
    decide
  | some v =>
    cases v with
    | obj kvs => simp [parse_decision, hu, hl] at h
    | null =>
      simp only [parse_decision, hu, hl] at h
      obtain rfl : PyExn.attributeError = e := by injection h
      decide
    | bool b =>
      simp only [parse_decision, hu, hl] at h
      obtain rfl : PyExn.attributeError = e := by injection h
      decide
    | num n =>
      simp only [parse_decision, hu, hl] at h
      obtain rfl : PyExn.attributeError = e := by injection h
      decide
    | str s =>
      simp only [parse_decision, hu, hl] at h
      obtain rfl : PyExn.attributeError = e := by injection h
      decide
    | arr xs =>
      simp only [parse_decision, hu, hl] at h
      obtain rfl : PyExn.attributeError = e := by injection h
      decide

/-- Witness for C10 at concrete inputs. -/
theorem C10_slicing_total_witness :
    2 ≤ (pySplit jsonFenceTag (cs "a```json b")).length
  ∧ 2 ≤ (pySplit fenceTag (cs "a``` b")).length
  ∧ PyExn.jsonDecodeError ≠ PyExn.indexError :=
  ⟨C10_slicing_total.1 (cs "a```json b") (by decide),
   C10_slicing_total.2.1 (cs "a``` b") (by decide),
   C10_slicing_total.2.2.2 (cs "no") PyExn.jsonDecodeError rfl⟩

/-- C3 counterexample: an enabled, addressed message whose configured
decision prompt template contains an unknown substitution key. The run
stops the event but never invokes the model, refuting the claim that
every addressed message invokes the model. -/
theorem C3_counterexample :
    ((⟨some true, none, none⟩ : HostConfig).enabled.getD true = true)
  ∧ ((⟨true, cs "hello"⟩ : Event).is_at_or_wake_command = true)
  ∧ group_message_handler ⟨true, [], [TItem.field (cs "foo")]⟩ ⟨some true, none, none⟩
      (fun _ => none) ⟨true, cs "hello"⟩ =
      [Act.log .received, Act.stopEvent, Act.log .unknownError] :=
  ⟨rfl, rfl, rfl⟩

/-- C3 (amended): for every enabled run, the event is stopped if and
only if the message is addressed or a configured keyword matches
case-insensitively; and the model is invoked if and only if the run is
additionally past a successful template format (which always holds for
the default template, but can fail for a configured one). -/
theorem C3_amended_trigger_gate (st : PluginState) (config : HostConfig)
    (provider : List Char → Option (List Char)) (event : Event)
    (hE : config.enabled.getD true = true) :
    ((Act.stopEvent ∈ group_message_handler st config provider event) ↔
      triggered st event = true)
  ∧ ((∃ p, Act.callProvider p ∈ group_message_handler st config provider event) ↔
      (triggered st event = true ∧
        ∃ prompt, pyFormat (pyStrip event.message_str) (pyBoolRepr event.is_at_or_wake_command)
          (cs "N/A") st.decision_prompt_template = .ok prompt)) := by
  cases hT : triggered st event with
  | false =>
    rw [handler_not_triggered st config provider event hE hT]
    constructor
    · simp
    · simp
  | true =>
    rw [handler_triggered_eq st config provider event hE hT]
    rcases try_body_cases st provider event.is_at_or_wake_command (pyStrip event.message_str) with
      ⟨e, hF, htb⟩ | ⟨prompt, rest, exn, hF, htb⟩
    · rw [htb]
      constructor
      · simp
      · constructor
        · rintro ⟨p, hp⟩
          simp at hp
        · rintro ⟨-, prompt, hprompt⟩
          rw [hF] at hprompt
          simp at hprompt
    · rw [htb]
      constructor
      · simp
      · constructor
        · intro _
          exact ⟨rfl, prompt, hF⟩
        · intro _
          refine ⟨prompt, ?_⟩
          cases exn <;> simp

/-- Witness for C3 (amended): an addressed message with an empty
keyword list and a well-formed template both stops the event and calls
the model; flipping the trigger condition to false yields neither. -/
theorem C3_amended_trigger_gate_witness :
    (Act.stopEvent ∈ group_message_handler ⟨true, [], [TItem.field (cs "user_message")]⟩
      ⟨some true, none, none⟩ (fun _ => none) ⟨true, cs "你好"⟩)
  ∧ (∃ p, Act.callProvider p ∈ group_message_handler ⟨true, [], [TItem.field (cs "user_message")]⟩
      ⟨some true, none, none⟩ (fun _ => none) ⟨true, cs "你好"⟩)
  ∧ ¬ (∃ p, Act.callProvider p ∈ group_message_handler ⟨true, [], [TItem.field (cs "user_message")]⟩
      ⟨some true, none, none⟩ (fun _ => none) ⟨false, cs "hi"⟩) :=
  ⟨((C3_amended_trigger_gate ⟨true, [], [TItem.field (cs "user_message")]⟩
      ⟨some true, none, none⟩ (fun _ => none) ⟨true, cs "你好"⟩ rfl).1).mpr rfl,
   ((C3_amended_trigger_gate ⟨true, [], [TItem.field (cs "user_message")]⟩
      ⟨some true, none, none⟩ (fun _ => none) ⟨true, cs "你好"⟩ rfl).2).mpr
      ⟨rfl, cs "你好", rfl⟩,
   fun h =>
    absurd (((C3_amended_trigger_gate ⟨true, [], [TItem.field (cs "user_message")]⟩
        ⟨some true, none, none⟩ (fun _ => none) ⟨false, cs "hi"⟩ rfl).2).mp h).1
      (by decide)⟩

/-- C4: after a successful parse into an object, `should_reply` defaults
to false and `reasoning` defaults to the filler string when the fields
are absent; in particular the object with only a `reasoning` field
yields should_reply = false and the run dispatches nothing. -/
theorem C4_decision_defaults :
    (∀ txt s kvs,
      extract_decision_json_str txt = .ok s →
      json_loads s = some (Json.obj kvs) →
      parse_decision txt = .ok (dictGet kvs (cs "should_reply") (Json.bool false),
                                dictGet kvs (cs "reasoning") (Json.str noReasoningText))
      ∧ ((∀ p ∈ kvs, p.1 ≠ cs "should_reply") →
          dictGet kvs (cs "should_reply") (Json.bool false) = Json.bool false)
      ∧ ((∀ p ∈ kvs, p.1 ≠ cs "reasoning") →
          dictGet kvs (cs "reasoning") (Json.str noReasoningText) = Json.str noReasoningText))
  ∧ parse_decision (cs "\x7b\"reasoning\": \"no flag given\"\x7d") =
      .ok (Json.bool false, Json.str (cs "no flag given"))
  ∧ (group_message_handler ⟨true, [], [TItem.field (cs "user_message")]⟩
       ⟨some true, none, none⟩
       (fun _ => some (cs "\x7b\"reasoning\": \"no flag given\"\x7d"))
       ⟨true, cs "hi"⟩).filter isReplyRequest = [] := by
  refine ⟨?_, rfl, rfl⟩
  intro txt s kvs hx hl
  refine ⟨by simp [parse_decision, hx, hl], ?_, ?_⟩
  · intro h
    unfold dictGet
    have hfil : kvs.filter (fun p => p.1 == cs "should_reply") = [] := by
      rw [List.filter_eq_nil_iff]
      intro p hp
      simpa using h p hp
    rw [hfil]
    rfl
  · intro h
    unfold dictGet
    have hfil : kvs.filter (fun p => p.1 == cs "reasoning") = [] := by
      rw [List.filter_eq_nil_iff]
      intro p hp
      simpa using h p hp
    rw [hfil]
    rfl

/-- Witness for C4 at the missing-flag object. -/
theorem C4_decision_defaults_witness :
    dictGet [(cs "reasoning", Json.str (cs "no flag given"))] (cs "should_reply")
      (Json.bool false) = Json.bool false :=
  (C4_decision_defaults.1 (cs "\x7b\"reasoning\": \"no flag given\"\x7d")
    (cs "\x7b\"reasoning\": \"no flag given\"\x7d")
    [(cs "reasoning", Json.str (cs "no flag given"))] rfl rfl).2.1 (by decide)

/-- C5: on every triggered run, each of the three error kinds (template
format error, provider call failure, extraction error) is handled inside
the pipeline: the trace carries an error log line and no downstream
reply request; the handler is a total function, so no error escapes the
run. -/
theorem C5_errors_silent_abort (st : PluginState) (config : HostConfig)
    (provider : List Char → Option (List Char)) (event : Event)
    (hE : config.enabled.getD true = true) (hT : triggered st event = true) :
    (∀ e, pyFormat (pyStrip event.message_str) (pyBoolRepr event.is_at_or_wake_command)
        (cs "N/A") st.decision_prompt_template = .error e →
      (group_message_handler st config provider event).filter isReplyRequest = []
      ∧ Act.log .unknownError ∈ group_message_handler st config provider event)
  ∧ (∀ prompt, pyFormat (pyStrip event.message_str) (pyBoolRepr event.is_at_or_wake_command)
        (cs "N/A") st.decision_prompt_template = .ok prompt →
      (provider prompt = none ∨ provider prompt = some []) →
      (group_message_handler st config provider event).filter isReplyRequest = []
      ∧ Act.log .llmCallFailed ∈ group_message_handler st config provider event)
  ∧ (∀ prompt txt, pyFormat (pyStrip event.message_str) (pyBoolRepr event.is_at_or_wake_command)
        (cs "N/A") st.decision_prompt_template = .ok prompt →
      provider prompt = some txt → txt.isEmpty = false →
      (parse_decision txt = .error PyExn.jsonDecodeError ∨
        parse_decision txt = .error PyExn.indexError) →
      (group_message_handler st config provider event).filter isReplyRequest = []
      ∧ Act.log .parseJsonFailed ∈ group_message_handler st config provider event) := by
  have hsh := handler_triggered_eq st config provider event hE hT
  refine ⟨?_, ?_, ?_⟩
  · intro e hF
    rw [hsh, try_body_format_error st provider event.is_at_or_wake_command
      (pyStrip event.message_str) e hF]
    exact ⟨rfl, by simp⟩
  · intro prompt hF hp
    rcases hp with hp | hp
    · rw [hsh, try_body_provider_none st provider event.is_at_or_wake_command
        (pyStrip event.message_str) prompt hF hp]
      exact ⟨rfl, by simp⟩
    · rw [hsh, try_body_provider_empty st provider event.is_at_or_wake_command
        (pyStrip event.message_str) prompt hF hp]
      exact ⟨rfl, by simp⟩
  · intro prompt txt hF hp hne hd
    rcases hd with hd | hd
    · rw [hsh, try_body_parse_fail_json st provider event.is_at_or_wake_command
        (pyStrip event.message_str) prompt txt hF hp hne hd]
      exact ⟨rfl, by simp⟩
    · rw [hsh, try_body_parse_fail_index st provider event.is_at_or_wake_command
        (pyStrip event.message_str) prompt txt hF hp hne hd]
      exact ⟨rfl, by simp⟩

/-- Witness for C5: each of the three error kinds at a concrete run. -/
theorem C5_errors_silent_abort_witness :
    ((group_message_handler ⟨true, [], [TItem.field (cs "foo")]⟩ ⟨some true, none, none⟩
        (fun _ => none) ⟨true, cs "hi"⟩).filter isReplyRequest = []
      ∧ Act.log .unknownError ∈ group_message_handler ⟨true, [], [TItem.field (cs "foo")]⟩
          ⟨some true, none, none⟩ (fun _ => none) ⟨true, cs "hi"⟩)
  ∧ ((group_message_handler ⟨true, [], [TItem.field (cs "user_message")]⟩
        ⟨some true, none, none⟩ (fun _ => none) ⟨true, cs "hi"⟩).filter isReplyRequest = []
      ∧ Act.log .llmCallFailed ∈ group_message_handler ⟨true, [], [TItem.field (cs "user_message")]⟩
          ⟨some true, none, none⟩ (fun _ => none) ⟨true, cs "hi"⟩)
  ∧ ((group_message_handler ⟨true, [], [TItem.field (cs "user_message")]⟩
        ⟨some true, none, none⟩ (fun _ => some (cs "oops")) ⟨true, cs "hi"⟩).filter
          isReplyRequest = []
      ∧ Act.log .parseJsonFailed ∈ group_message_handler
          ⟨true, [], [TItem.field (cs "user_message")]⟩ ⟨some true, none, none⟩
          (fun _ => some (cs "oops")) ⟨true, cs "hi"⟩) :=
  ⟨(C5_errors_silent_abort ⟨true, [], [TItem.field (cs "foo")]⟩ ⟨some true, none, none⟩
      (fun _ => none) ⟨true, cs "hi"⟩ rfl rfl).1 PyExn.keyError rfl,
   (C5_errors_silent_abort ⟨true, [], [TItem.field (cs "user_message")]⟩ ⟨some true, none, none⟩
      (fun _ => none) ⟨true, cs "hi"⟩ rfl rfl).2.1 (cs "hi") rfl (Or.inl rfl),
   (C5_errors_silent_abort ⟨true, [], [TItem.field (cs "user_message")]⟩ ⟨some true, none, none⟩
      (fun _ => some (cs "oops")) ⟨true, cs "hi"⟩ rfl rfl).2.2 (cs "hi") (cs "oops")
      rfl rfl rfl (Or.inl rfl)⟩

/-- C6: with the enabled flag read as false, the handler returns before
any other step: the trace is empty (no log, no event stop, no provider
call, no dispatch). -/
theorem C6_disabled_no_effects (st : PluginState) (config : HostConfig)
    (provider : List Char → Option (List Char)) (event : Event)
    (h : config.enabled.getD true = false) :
    group_message_handler st config provider event = [] := by
  unfold group_message_handler
  simp [h]

/-- Witness for C6 at a concrete disabled configuration. -/
theorem C6_disabled_no_effects_witness :
    group_message_handler ⟨true, [cs "hi"], [TItem.field (cs "user_message")]⟩
      ⟨some false, none, none⟩ (fun _ => some (cs "x")) ⟨true, cs "hello"⟩ = [] :=
  C6_disabled_no_effects _ _ _ _ rfl

/-- C7: every triggered run logs receipt and stops the event as its
first two actions, before any provider call; any provider call in the
trace sits strictly after the stop signal, so aborted runs have still
claimed the message. -/
theorem C7_stop_before_model_call (st : PluginState) (config : HostConfig)
    (provider : List Char → Option (List Char)) (event : Event)
    (hE : config.enabled.getD true = true) (hT : triggered st event = true) :
    (∃ rest, group_message_handler st config provider event =
        Act.log .received :: Act.stopEvent :: rest)
  ∧ (∀ n p, (group_message_handler st config provider event).get? n =
        some (Act.callProvider p) → 2 ≤ n) := by
  have hsh := handler_triggered_eq st config provider event hE hT
  refine ⟨⟨_, hsh⟩, ?_⟩
  intro n p hn
  rw [hsh] at hn
  match n with
  | 0 => simp [List.get?] at hn
  | 1 => simp [List.get?] at hn
  | (k + 2) => omega

/-- Witness for C7: a triggered run that aborts on provider failure has
still stopped the event before the provider call. -/
theorem C7_stop_before_model_call_witness :
    ∃ rest, group_message_handler ⟨true, [], [TItem.field (cs "user_message")]⟩
        ⟨some true, none, none⟩ (fun _ => none) ⟨true, cs "hi"⟩ =
        Act.log .received :: Act.stopEvent :: rest :=
  (C7_stop_before_model_call ⟨true, [], [TItem.field (cs "user_message")]⟩
    ⟨some true, none, none⟩ (fun _ => none) ⟨true, cs "hi"⟩ rfl rfl).1

/-- C8: a run dispatches at most one downstream request; any dispatched
request carries the (stripped) message text as its prompt; and on a run
that reaches a Decision, exactly one request is dispatched when
should_reply is truthy and none otherwise. -/
theorem C8_single_dispatch (st : PluginState) (config : HostConfig)
    (provider : List Char → Option (List Char)) (event : Event) :
    ((group_message_handler st config provider event).filter isReplyRequest).length ≤ 1
  ∧ (∀ p, Act.requestLLM p ∈ group_message_handler st config provider event →
      p = pyStrip event.message_str)
  ∧ (∀ prompt txt sr rs,
      config.enabled.getD true = true → triggered st event = true →
      pyFormat (pyStrip event.message_str) (pyBoolRepr event.is_at_or_wake_command) (cs "N/A")
        st.decision_prompt_template = .ok prompt →
      provider prompt = some txt → txt.isEmpty = false →
      parse_decision txt = .ok (sr, rs) →
      ((group_message_handler st config provider event).filter isReplyRequest).length =
        (if pyTruthy sr then 1 else 0)) := by
  refine ⟨?_, ?_, ?_⟩
  · rcases handler_requests st config provider event with h | h <;> simp [h]
  · intro p hp
    have hmem : Act.requestLLM p ∈
        (group_message_handler st config provider event).filter isReplyRequest :=
      List.mem_filter.mpr ⟨hp, rfl⟩
    rcases handler_requests st config provider event with h | h
    · rw [h] at hmem
      simp at hmem
    · rw [h] at hmem
      have := List.mem_singleton.mp hmem
      injection this
  · intro prompt txt sr rs hE hT hF hp hne hd
    rw [handler_triggered_eq st config provider event hE hT,
      try_body_decision st provider event.is_at_or_wake_command (pyStrip event.message_str)
        prompt txt sr rs hF hp hne hd]
    cases hS : pyTruthy sr with
    | true => simp only [hS, if_true]; rfl
    | false => simp only [hS, Bool.false_eq_true, if_false]; rfl

/-- Witness for C8: a concrete positive decision dispatches exactly one
request. -/
theorem C8_single_dispatch_witness :
    ((group_message_handler ⟨true, [], [TItem.field (cs "user_message")]⟩
        ⟨some true, none, none⟩
        (fun _ => some (cs "\x7b\"should_reply\": true, \"reasoning\": \"k\"\x7d"))
        ⟨true, cs "hi"⟩).filter isReplyRequest).length =
      (if pyTruthy (Json.bool true) then 1 else 0) :=
  (C8_single_dispatch ⟨true, [], [TItem.field (cs "user_message")]⟩ ⟨some true, none, none⟩
    (fun _ => some (cs "\x7b\"should_reply\": true, \"reasoning\": \"k\"\x7d"))
    ⟨true, cs "hi"⟩).2.2 (cs "hi") (cs "\x7b\"should_reply\": true, \"reasoning\": \"k\"\x7d")
    (Json.bool true) (Json.str (cs "k")) rfl rfl rfl rfl rfl rfl

/-- C9 counterexample: keywords are read once at initialization. With
init-time keyword list `["hello"]` and the live configuration changed to
`["bye"]`, the unaddressed message "bye" does not trigger; had the
keywords been read fresh (re-initializing from the changed
configuration), the same message would trigger. -/
theorem C9_counterexample :
    group_message_handler
      (plugin_init ⟨some true, some [cs "hello"], some [TItem.field (cs "user_message")]⟩)
      ⟨some true, some [cs "bye"], some [TItem.field (cs "user_message")]⟩
      (fun _ => none) ⟨false, cs "bye"⟩ = []
  ∧ group_message_handler
      (plugin_init ⟨some true, some [cs "bye"], some [TItem.field (cs "user_message")]⟩)
      ⟨some true, some [cs "bye"], some [TItem.field (cs "user_message")]⟩
      (fun _ => none) ⟨false, cs "bye"⟩ ≠ [] :=
  ⟨rfl, by decide⟩

/-- C9 (amended): only `enabled` is read fresh from the live
configuration on each evaluation; `trigger_keywords` and
`decision_prompt_template` are the init-time attributes, and the live
configuration's values for them (as well as the init-time `enabled`
attribute) are never consulted by the handler. -/
theorem C9_amended_config_reads (st st' : PluginState) (config config' : HostConfig)
    (provider : List Char → Option (List Char)) (event : Event) :
    (st.trigger_keywords = st'.trigger_keywords →
      st.decision_prompt_template = st'.decision_prompt_template →
      group_message_handler st config provider event =
        group_message_handler st' config provider event)
  ∧ (config.enabled = config'.enabled →
      group_message_handler st config provider event =
        group_message_handler st config' provider event) := by
  constructor
  · intro h1 h2
    unfold group_message_handler try_body
    rw [h1, h2]
  · intro h
    unfold group_message_handler
    rw [h]

/-- Witness for C9 (amended): the init-time `enabled` attribute is
irrelevant (freshness of `enabled`), and a live-configuration keyword
change is invisible (staleness of the keyword list). -/
theorem C9_amended_config_reads_witness :
    group_message_handler ⟨true, [cs "k"], [TItem.field (cs "user_message")]⟩
        ⟨some true, some [cs "a"], none⟩ (fun _ => none) ⟨false, cs "k!"⟩ =
      group_message_handler ⟨false, [cs "k"], [TItem.field (cs "user_message")]⟩
        ⟨some true, some [cs "a"], none⟩ (fun _ => none) ⟨false, cs "k!"⟩
  ∧ group_message_handler ⟨true, [cs "k"], [TItem.field (cs "user_message")]⟩
        ⟨some true, some [cs "a"], none⟩ (fun _ => none) ⟨false, cs "k!"⟩ =
      group_message_handler ⟨true, [cs "k"], [TItem.field (cs "user_message")]⟩
        ⟨some true, some [cs "b"], some []⟩ (fun _ => none) ⟨false, cs "k!"⟩ :=
  ⟨(C9_amended_config_reads ⟨true, [cs "k"], [TItem.field (cs "user_message")]⟩
      ⟨false, [cs "k"], [TItem.field (cs "user_message")]⟩
      ⟨some true, some [cs "a"], none⟩ ⟨some true, some [cs "a"], none⟩
      (fun _ => none) ⟨false, cs "k!"⟩).1 rfl rfl,
   (C9_amended_config_reads ⟨true, [cs "k"], [TItem.field (cs "user_message")]⟩
      ⟨true, [cs "k"], [TItem.field (cs "user_message")]⟩
      ⟨some true, some [cs "a"], none⟩ ⟨some true, some [cs "b"], some []⟩
      (fun _ => none) ⟨false, cs "k!"⟩).2 rfl⟩

end BetterAutoReply
